import Mathlib

set_option maxHeartbeats 1000000

/-!
Verification of the discord-receipt-bot order-intake core against its
natural-language specification.

The development shallowly embeds the relevant source functions:

* the email-format validator `is_valid_email`
  (src/email_utils.py and src/bot/email_utils.py, identical regex),
* the module-level `send_email` of src/email_utils.py (the function wired
  into the modal chain by src/bot_commands.py as `send_email_func`),
* `EmailService.send_single_email` of src/bot/email_utils.py
  (connection check, message build, retry-once-on-disconnect loop),
* the session store `bot.temp_order_data` and the three modal handlers of
  src/bot/discord_ui.py (`OrderFormStep1.on_submit`,
  `OrderFormStep2.__init__`/`on_submit`, `OrderFormStep3.__init__`/`on_submit`).

Machine-level side effects (printing, the Discord transport) are modelled as
events in a trace; the SMTP transport is modelled by outcome oracles that say
how each network call would end.
-/

/-! ### Email format validation

The Python source applies `re.match` with the pattern
`^[a-zA-Z0-9_.+-]+@[a-zA-Z0-9-]+\.[a-zA-Z0-9-.]+$`.
Because none of the three character classes contains `@`, the local part ends
at the first `@`; because the domain class excludes `.`, the literal dot of
the pattern is the first dot after the `@`; the tail class then has to cover
every remaining matched character.  Python's `$` matches at the end of the
string or just before a string-final newline, so the wrapper accepts either a
full match or a full match of the input with one trailing newline removed. -/

/-- The class `[a-zA-Z0-9_.+-]` of the regex's local part. -/
def isLocalChar (c : Char) : Bool :=
  c.isAlpha || c.isDigit || c == '_' || c == '.' || c == '+' || c == '-'

/-- The class `[a-zA-Z0-9-]` of the regex's domain part. -/
def isDomainChar (c : Char) : Bool :=
  c.isAlpha || c.isDigit || c == '-'

/-- The class `[a-zA-Z0-9-.]` of the regex's TLD part. -/
def isTldChar (c : Char) : Bool :=
  c.isAlpha || c.isDigit || c == '-' || c == '.'

/-- Matcher for the regex fragment `[a-zA-Z0-9-]+\.[a-zA-Z0-9-.]+` against a
whole character list. -/
def matchDomainTld (cs : List Char) : Bool :=
  ((cs.dropWhile isDomainChar).head? == some '.') &&
    !(cs.takeWhile isDomainChar).isEmpty &&
    !(cs.dropWhile isDomainChar).tail.isEmpty &&
    (cs.dropWhile isDomainChar).tail.all isTldChar

/-- Matcher for the full regex `^[a-zA-Z0-9_.+-]+@[a-zA-Z0-9-]+\.[a-zA-Z0-9-.]+`
anchored at both ends of the character list (the plain-`$` case). -/
def matchEmailRegex (cs : List Char) : Bool :=
  ((cs.dropWhile isLocalChar).head? == some '@') &&
    !(cs.takeWhile isLocalChar).isEmpty &&
    matchDomainTld (cs.dropWhile isLocalChar).tail

/-- `is_valid_email` of src/email_utils.py / src/bot/email_utils.py:
`re.match` of the anchored pattern.  The second disjunct models Python's `$`
matching just before a string-final newline. -/
def is_valid_email (s : String) : Bool :=
  matchEmailRegex s.data ||
    ((s.data.getLast? == some '\n') && matchEmailRegex s.data.dropLast)

/-- Modelled from the spec's words (section 4.1): the documented pattern
`local-part@domain-labels.tld-labels`, local part one-or-more of
`[A-Za-z0-9_.+-]`, domain one-or-more of `[A-Za-z0-9-]`, a literal dot, then
one-or-more of `[A-Za-z0-9-.]`.  Used only to compare the spec's pattern with
the source's matcher. -/
def specEmailPattern (cs : List Char) : Prop :=
  ∃ l d t : List Char,
    cs = l ++ '@' :: (d ++ '.' :: t) ∧
    l ≠ [] ∧ (∀ c ∈ l, isLocalChar c = true) ∧
    d ≠ [] ∧ (∀ c ∈ d, isDomainChar c = true) ∧
    t ≠ [] ∧ (∀ c ∈ t, isTldChar c = true)

/-! ### Python dict operations

Field mappings are modelled as association lists in insertion order.
`pyDictInsert` is `d[k] = v` (update in place if the key exists, append
otherwise); `pyDictMerge a b` is `{**a, **b}`. -/

/-- Python `d[k] = v` on a dict modelled as an association list. -/
def pyDictInsert (d : List (String × String)) (k v : String) :
    List (String × String) :=
  if d.any (fun kv => kv.1 == k) then
    d.map (fun kv => if kv.1 == k then (k, v) else kv)
  else
    d ++ [(k, v)]

/-- Python `{**a, **b}`: start from `a` and write every entry of `b` in order. -/
def pyDictMerge (a b : List (String × String)) : List (String × String) :=
  b.foldl (fun acc kv => pyDictInsert acc kv.1 kv.2) a

/-- `{**step1_data, **step2_data, **final_step_data}` of
`OrderFormStep3.on_submit` (src/bot/discord_ui.py line 254). -/
def merged_data (step1_data step2_data final_step_data : List (String × String)) :
    List (String × String) :=
  pyDictMerge (pyDictMerge step1_data step2_data) final_step_data

/-- Left-biased choice on optional lookup results; used to state which step's
value survives the merge. -/
def dictOr (a b : Option String) : Option String :=
  match a with
  | some v => some v
  | none => b

/-! ### Template substitution

`html_body.replace(f"{{{{{key}}}}}", str(value))` for each item of the data
dict, in order.  Python's `str.replace` scans left to right and does not
rescan the replacement text within one call; each later call rescans the
whole string. -/

/-- Python `str.replace(pat, sub)` on character lists (all occurrences, left
to right, the replacement is not rescanned).  The callers below always pass a
nonempty pattern of the shape two braces, key, two braces. -/
def replaceAll (pat sub : List Char) (cs : List Char) : List Char :=
  match cs with
  | [] => []
  | c :: rest =>
    if h : pat.isPrefixOf (c :: rest) = true ∧ pat ≠ [] then
      sub ++ replaceAll pat sub ((c :: rest).drop pat.length)
    else
      c :: replaceAll pat sub rest
termination_by cs.length
decreasing_by
  · simp only [List.length_drop, List.length_cons]
    have hp : 0 < pat.length := List.length_pos.mpr h.2
    omega
  · simp only [List.length_cons]
    omega

/-- Whether `pat` occurs as a contiguous substring of `cs`. -/
def occursIn (pat cs : List Char) : Bool :=
  match cs with
  | [] => pat.isEmpty
  | _ :: rest => pat.isPrefixOf cs || occursIn pat rest

/-- The pattern `f"{{{{{key}}}}}"`, i.e. two opening braces, the key, two
closing braces. -/
def placeholderPattern (key : String) : List Char :=
  '\x7b' :: '\x7b' :: (key.data ++ ['\x7d', '\x7d'])

/-- The substitution loop `for key, value in email_data.items(): html_body =
html_body.replace(...)` shared by `send_email` and `send_single_email`. -/
def renderBody (htmlBody : List Char) (email_data : List (String × String)) :
    List Char :=
  email_data.foldl
    (fun body kv => replaceAll (placeholderPattern kv.1) kv.2.data body)
    htmlBody

/-! ### Email messages, templates and transport outcomes -/

/-- The parts of the MIMEMultipart message the handlers set. -/
structure MimeMessage where
  fromAddr : String
  toAddr : String
  subject : String
  bodyHtml : List Char
  deriving Repr, DecidableEq

/-- The email template dict: the `subject` and `html_body` keys may each be
absent (`dict.get` with a default is used at both call sites). -/
structure EmailTemplateData where
  subjectOpt : Option String
  htmlBodyOpt : Option String

/-- The fallback body used when the template has no `html_body` key. -/
def templateMissingBody : String := "<p>Error: Email template not found.</p>"

/-- How one SMTP operation can fail, following the `aiosmtplib.errors` names
caught in the source.  `otherSmtp` stands for any further `SMTPException`;
`otherException` for a non-SMTP `Exception`. -/
inductive TransportError
  | authError
  | recipientsRefused
  | recipientRefused
  | senderRefused
  | dataError
  | serverDisconnected
  | heloError
  | otherSmtp
  | otherException
  deriving Repr, DecidableEq

/-! ### Module-level send_email (src/email_utils.py, lines 35-108)

The function builds the message (hard-coded subject), then enters one big
`try` whose nine `except` clauses each print and fall through, so the
function returns `None` no matter how the transport call ends.  The transport
outcome is an oracle parameter: `none` means the connect/login/sendmail
sequence succeeded, `some e` that it raised `e`.  The second component of the
result is the exception escaping to the caller, if any. -/

/-- The `except` chain of `send_email`: given the error raised inside the
`try`, the exception it re-raises (`none` = caught, return normally).  One
match arm per `except` clause of the source. -/
def send_email_handleError (e : TransportError) : Option TransportError :=
  match e with
  | TransportError.authError => none          -- except SMTPAuthenticationError
  | TransportError.recipientsRefused => none  -- except SMTPRecipientsRefused
  | TransportError.recipientRefused => none   -- except SMTPRecipientRefused
  | TransportError.senderRefused => none      -- except SMTPSenderRefused
  | TransportError.dataError => none          -- except SMTPDataError
  | TransportError.serverDisconnected => none -- except SMTPServerDisconnected
  | TransportError.heloError => none          -- except SMTPHeloError
  | TransportError.otherSmtp => none          -- except SMTPException
  | TransportError.otherException => none     -- except Exception

/-- `send_email` of src/email_utils.py.  Returns the built message and the
exception escaping to the caller (`none` on normal return). -/
def send_email (recipient_email : String) (email_data : List (String × String))
    (sender_email_address : String) (_sender_password_value : String)
    (email_template_data : EmailTemplateData)
    (outcome : Option TransportError) : MimeMessage × Option TransportError :=
  let message : MimeMessage :=
    { fromAddr := sender_email_address
      toAddr := recipient_email
      subject := "Order Confirmation"
      bodyHtml :=
        renderBody (email_template_data.htmlBodyOpt.getD templateMissingBody).data
          email_data }
  (message,
    match outcome with
    | none => none
    | some e => send_email_handleError e)

/-! ### EmailService.send_single_email (src/bot/email_utils.py, lines 76-129)

State relevant to the claims: whether `self.client` is a connected client.
The network is modelled by two oracles: `connOk i` tells whether the `i`-th
`connect()` call succeeds, `sendRes i` how the `i`-th `sendmail` call ends
(`none` = delivered).  The loop runs `max_retries + 1` times. -/

/-- `max_retries = 1` of `send_single_email`. -/
def max_retries : Nat := 1

/-- How `send_single_email` ends, seen from the caller. -/
inductive SendResult
  | success        -- the `return` after a successful sendmail
  | deliveryError  -- the final `raise Exception("Failed to send email ... after retries.")`
  | smtpRaised     -- re-raise of an SMTP error other than a disconnection
  | genericRaised  -- re-raise of a non-SMTP exception
  | connectRaised  -- exception propagating from the pre-loop connect()
  deriving Repr, DecidableEq

/-- Observable outcome of the send loop: caller-visible result, number of
`sendmail` transmissions performed, and whether `self.client` is still a
connected client afterwards. -/
structure LoopResult where
  res : SendResult
  sends : Nat
  clientConnected : Bool
  deriving Repr, DecidableEq

/-- The `for attempt in range(max_retries + 1)` loop of `send_single_email`.
`remaining` counts the loop iterations still available including the current
one; `sIdx`/`cIdx` index the transmission and reconnect oracles. -/
def sendLoop (sendRes : Nat → Option TransportError) (connOk : Nat → Bool) :
    Nat → Nat → Nat → LoopResult
  | 0, _, _ =>
      -- loop exhausted: `raise Exception(... after retries)`; only reachable
      -- after a disconnection reset the client
      { res := SendResult.deliveryError, sends := 0, clientConnected := false }
  | remaining + 1, sIdx, cIdx =>
    match sendRes sIdx with
    | none =>
        -- sendmail succeeded: `return`
        { res := SendResult.success, sends := 1, clientConnected := true }
    | some TransportError.serverDisconnected =>
        -- `except SMTPServerDisconnected`: `self.client = None`
        if remaining = 0 then
          -- attempt == max_retries: loop ends, final raise
          { res := SendResult.deliveryError, sends := 1, clientConnected := false }
        else if connOk cIdx then
          -- reconnect succeeded, next loop iteration resends
          let r := sendLoop sendRes connOk remaining (sIdx + 1) (cIdx + 1)
          { res := r.res, sends := r.sends + 1, clientConnected := r.clientConnected }
        else
          -- `except Exception as e_conn: ... break`, then the final raise
          { res := SendResult.deliveryError, sends := 1, clientConnected := false }
    | some TransportError.otherException =>
        -- generic `except Exception`: re-raise
        { res := SendResult.genericRaised, sends := 1, clientConnected := true }
    | some _ =>
        -- the SMTP-error `except` tuple: re-raise
        { res := SendResult.smtpRaised, sends := 1, clientConnected := true }

/-- `EmailService.send_single_email`: connect if not already connected (an
exception from that connect propagates), build the message, run the send
loop.  The first component is the message, built only when the pre-loop
connect did not raise. -/
def send_single_email (username recipient_email : String)
    (email_template_data : EmailTemplateData)
    (email_data : List (String × String))
    (initiallyConnected : Bool) (connOk : Nat → Bool)
    (sendRes : Nat → Option TransportError) :
    Option MimeMessage × LoopResult :=
  let message : MimeMessage :=
    { fromAddr := username
      toAddr := recipient_email
      subject := email_template_data.subjectOpt.getD "Order Confirmation"
      bodyHtml :=
        renderBody (email_template_data.htmlBodyOpt.getD templateMissingBody).data
          email_data }
  if initiallyConnected then
    (some message, sendLoop sendRes connOk (max_retries + 1) 0 0)
  else if connOk 0 then
    (some message, sendLoop sendRes connOk (max_retries + 1) 0 1)
  else
    (none, { res := SendResult.connectRaised, sends := 0, clientConnected := false })

/-! ### The session store and the modal handlers (src/bot/discord_ui.py)

`bot.temp_order_data` is a dict keyed by the Discord user id.  The wiring of
src/bot_commands.py passes the module-level `send_email` above as
`send_email_func`. -/

/-- A `temp_order_data[user_id]` entry: `email` and `step1_data` are written
by `OrderFormStep1.on_submit`; the `step2_data` key is absent until
`OrderFormStep2.on_submit` runs. -/
structure OrderSession where
  email : String
  step1_data : List (String × String)
  step2_data : Option (List (String × String))
  deriving DecidableEq

/-- The store `bot.temp_order_data`. -/
def TempOrderData : Type := Nat → Option OrderSession

/-- A store with no sessions. -/
def emptyTempOrderData : TempOrderData := fun _ => none

/-- Python exceptions raised by the handlers themselves. -/
inductive PyErr
  | keyError
  deriving Repr, DecidableEq

/-- `OrderFormStep1.on_submit` (src/bot/discord_ui.py lines 92-99):
`temp_order_data[user_id] = {'email': ..., 'step1_data': ...}` - a plain dict
assignment, overwriting any existing entry; no `step2_data` key. -/
def OrderFormStep1_on_submit (store : TempOrderData) (user_id : Nat)
    (user_email : String) (user_data : List (String × String)) : TempOrderData :=
  fun u =>
    if u = user_id then
      some { email := user_email, step1_data := user_data, step2_data := none }
    else store u

/-- `OrderFormStep2.__init__` (src/bot/discord_ui.py line 154):
`self.step1_data = self.bot_instance.temp_order_data[self.user_id]['step1_data']`.
A missing entry raises `KeyError`; nothing in the handler catches it and no
message is sent on that path. -/
def OrderFormStep2_init (store : TempOrderData) (user_id : Nat) :
    Except PyErr (List (String × String)) :=
  match store user_id with
  | none => Except.error PyErr.keyError
  | some s => Except.ok s.step1_data

/-- `OrderFormStep2.on_submit` (src/bot/discord_ui.py line 176):
`temp_order_data[self.user_id]['step2_data'] = step2_data`; raises `KeyError`
when the entry is absent. -/
def OrderFormStep2_on_submit (store : TempOrderData) (user_id : Nat)
    (step2_data : List (String × String)) : Except PyErr TempOrderData :=
  match store user_id with
  | none => Except.error PyErr.keyError
  | some s =>
      Except.ok fun u =>
        if u = user_id then some { s with step2_data := some step2_data }
        else store u

/-- `OrderFormStep3.__init__` (src/bot/discord_ui.py lines 231-233): reads
`temp_order_data[self.user_id]` (`KeyError` if absent), its `step1_data`, and
`step2_data` via `.get('step2_data', {})`. -/
def OrderFormStep3_init (store : TempOrderData) (user_id : Nat) :
    Except PyErr (List (String × String) × List (String × String)) :=
  match store user_id with
  | none => Except.error PyErr.keyError
  | some s => Except.ok (s.step1_data, s.step2_data.getD [])

/-- Externally visible actions of the Step-3 handler, in program order. -/
inductive BotEvent
  | summaryMessage (user_id : Nat)        -- the order-summary channel message
  | emailSendCall (recipient : String)    -- the `await self.send_email_func(...)`
  | sessionDeleted (user_id : Nat)        -- `del temp_order_data[user_id]` succeeded
  | deleteKeyErrorLogged (user_id : Nat)  -- the `except KeyError` log line
  deriving Repr, DecidableEq

/-- The nine keys the summary f-string reads with bare `merged_data[...]`
lookups, in evaluation order (src/bot/discord_ui.py lines 259-266):
product name, purchase price, both arrival dates, style id, size, color,
condition, shipping address. -/
def summaryKeys : List String :=
  ["product_name", "purchase_price", "estimated_arrival_start_date",
   "estimated_arrival_end_date", "style_id", "product_size", "color",
   "product_condition", "shipping_address"]

/-- An exception escaping `OrderFormStep3.on_submit`: the KeyError of a bare
summary-f-string lookup, or an exception raised by the email function. -/
inductive HandlerExn
  | keyErrorExn
  | transportExn (e : TransportError)
  deriving Repr, DecidableEq

/-- Result of running `OrderFormStep3.on_submit`. -/
structure Step3Result where
  store : TempOrderData
  events : List BotEvent
  raised : Option HandlerExn
  merged : List (String × String)

/-- `OrderFormStep3.on_submit` (src/bot/discord_ui.py lines 246-287), with
`send_email_func` wired to the module-level `send_email` as in
src/bot_commands.py: merge the three field dicts; evaluate the summary
f-string, whose nine bare `merged_data[...]` lookups raise KeyError before
anything is emitted if a key is absent, in which case the handler aborts with
nothing sent and the session still in the store; otherwise emit the order
summary to the channel, await the email send (an exception there would skip
the rest), then `try: del temp_order_data[user_id]` with `except KeyError`
logged. -/
def OrderFormStep3_on_submit (store : TempOrderData) (user_id : Nat)
    (user_email : String)
    (step1_data step2_data final_step_data : List (String × String))
    (sender_email sender_password : String) (email_template : EmailTemplateData)
    (outcome : Option TransportError) : Step3Result :=
  let merged := merged_data step1_data step2_data final_step_data
  if summaryKeys.all (fun k => (List.lookup k merged).isSome) then
    match (send_email user_email merged sender_email sender_password
        email_template outcome).2 with
    | some e =>
        { store := store
          events := [BotEvent.summaryMessage user_id, BotEvent.emailSendCall user_email]
          raised := some (HandlerExn.transportExn e)
          merged := merged }
    | none =>
      match store user_id with
      | some _ =>
          { store := fun u => if u = user_id then none else store u
            events := [BotEvent.summaryMessage user_id,
                       BotEvent.emailSendCall user_email,
                       BotEvent.sessionDeleted user_id]
            raised := none
            merged := merged }
      | none =>
          { store := store
            events := [BotEvent.summaryMessage user_id,
                       BotEvent.emailSendCall user_email,
                       BotEvent.deleteKeyErrorLogged user_id]
            raised := none
            merged := merged }
  else
    { store := store
      events := []
      raised := some HandlerExn.keyErrorExn
      merged := merged }

/-- The Step-1 field dict of the source's form (all five fields required),
with sample values; used by witnesses. -/
def sampleStep1Data : List (String × String) :=
  [("order_number", "1"), ("estimated_arrival_start_date", "2025-01-01"),
   ("estimated_arrival_end_date", "2025-01-05"), ("product_image_url", "u"),
   ("product_name", "Shoe")]

/-- The Step-2 field dict of the source's form, with sample values. -/
def sampleStep2Data : List (String × String) :=
  [("style_id", "A1"), ("product_size", "10"), ("product_condition", "New"),
   ("purchase_price", "100"), ("color", "Black")]

/-- The Step-3 field dict of the source's form, with sample values. -/
def sampleStep3Data : List (String × String) :=
  [("shipping_address", "X"), ("notes", "")]

/-! ### Helper lemmas about takeWhile and dropWhile -/

theorem takeWhile_all_append {p : Char → Bool} {l : List Char}
    (hl : ∀ c ∈ l, p c = true) {c : Char} (hc : p c = false) (r : List Char) :
    (l ++ c :: r).takeWhile p = l ∧ (l ++ c :: r).dropWhile p = c :: r := by
  induction l with
  | nil => simp [List.takeWhile_cons, List.dropWhile_cons, hc]
  | cons a as ih =>
    have ha : p a = true := hl a (List.mem_cons_self a as)
    have ih' := ih (fun x hx => hl x (List.mem_cons_of_mem a hx))
    simp [List.takeWhile_cons, List.dropWhile_cons, ha, ih'.1, ih'.2]

theorem eq_dropLast_append_of_getLast {cs : List Char} {c : Char}
    (h : cs.getLast? = some c) : cs = cs.dropLast ++ [c] := by
  induction cs using List.reverseRecOn with
  | nil => simp at h
  | append_singleton l a _ =>
    rw [List.getLast?_concat] at h
    cases h
    rw [List.dropLast_concat]

/-! ### The matcher agrees with the documented pattern -/

theorem matchDomainTld_iff (cs : List Char) :
    matchDomainTld cs = true ↔
      ∃ d t : List Char, cs = d ++ '.' :: t ∧
        d ≠ [] ∧ (∀ c ∈ d, isDomainChar c = true) ∧
        t ≠ [] ∧ (∀ c ∈ t, isTldChar c = true) := by
  constructor
  · intro h
    simp only [matchDomainTld, Bool.and_eq_true, beq_iff_eq, Bool.not_eq_true',
      List.all_eq_true] at h
    obtain ⟨⟨⟨hhead, htake⟩, htail⟩, hall⟩ := h
    cases hd : cs.dropWhile isDomainChar with
    | nil => rw [hd] at hhead; simp at hhead
    | cons x xs =>
      rw [hd] at hhead htail hall
      simp only [List.head?_cons, Option.some.injEq] at hhead
      subst hhead
      refine ⟨cs.takeWhile isDomainChar, xs, ?_, ?_, ?_, ?_, ?_⟩
      · conv_lhs => rw [← List.takeWhile_append_dropWhile isDomainChar cs]
        rw [hd]
      · intro hnil
        rw [hnil] at htake
        simp at htake
      · intro c hc
        exact List.mem_takeWhile_imp hc
      · intro hnil
        rw [hnil] at htail
        simp at htail
      · simpa using hall
  · rintro ⟨d, t, rfl, hdne, hdall, htne, htall⟩
    have hdot : isDomainChar '.' = false := by decide
    have hdecomp := takeWhile_all_append hdall hdot t
    simp [matchDomainTld, hdecomp.1, hdecomp.2, List.all_eq_true, hdne, htne]
    exact htall

theorem matchEmailRegex_iff (cs : List Char) :
    matchEmailRegex cs = true ↔ specEmailPattern cs := by
  constructor
  · intro h
    simp only [matchEmailRegex, Bool.and_eq_true, beq_iff_eq, Bool.not_eq_true'] at h
    obtain ⟨⟨hhead, htake⟩, hrest⟩ := h
    cases hd : cs.dropWhile isLocalChar with
    | nil => rw [hd] at hhead; simp at hhead
    | cons x xs =>
      rw [hd] at hhead hrest
      simp only [List.head?_cons, Option.some.injEq] at hhead
      subst hhead
      simp only [List.tail_cons] at hrest
      obtain ⟨d, t, hxs, hdne, hdall, htne, htall⟩ := (matchDomainTld_iff xs).mp hrest
      refine ⟨cs.takeWhile isLocalChar, d, t, ?_, ?_, ?_, hdne, hdall, htne, htall⟩
      · conv_lhs => rw [← List.takeWhile_append_dropWhile isLocalChar cs]
        rw [hd, hxs]
      · intro hnil
        rw [hnil] at htake
        simp at htake
      · intro c hc
        exact List.mem_takeWhile_imp hc
  · rintro ⟨l, d, t, rfl, hlne, hlall, hdne, hdall, htne, htall⟩
    have hat : isLocalChar '@' = false := by decide
    have hdecomp := takeWhile_all_append hlall hat (d ++ '.' :: t)
    have hdom : matchDomainTld (d ++ '.' :: t) = true :=
      (matchDomainTld_iff _).mpr ⟨d, t, rfl, hdne, hdall, htne, htall⟩
    simp [matchEmailRegex, hdecomp.1, hdecomp.2, hlne, hdom]

theorem specEmailPattern_at_mem {cs : List Char} (h : specEmailPattern cs) :
    '@' ∈ cs := by
  obtain ⟨l, d, t, rfl, -⟩ := h
  simp

theorem specEmailPattern_dot_after_at {cs : List Char} (h : specEmailPattern cs)
    (tl : List Char) :
    '.' ∈ ((cs ++ tl).dropWhile (fun c => !(c == '@'))).tail := by
  obtain ⟨l, d, t, rfl, _, hlall, -⟩ := h
  have hlne : ∀ c ∈ l, (fun c => !(c == '@')) c = true := by
    intro c hc
    have := hlall c hc
    by_cases hca : c = '@'
    · subst hca; simp [isLocalChar] at this
    · simp [hca]
  have hat : (fun c => !(c == '@')) '@' = false := by simp
  have : (l ++ '@' :: (d ++ '.' :: t)) ++ tl = l ++ '@' :: ((d ++ '.' :: t) ++ tl) := by
    simp
  rw [this, (takeWhile_all_append hlne hat ((d ++ '.' :: t) ++ tl)).2]
  simp

/-! ### Helper lemmas about replaceAll -/

theorem isPrefixOf_append_self (l r : List Char) :
    l.isPrefixOf (l ++ r) = true := by
  induction l with
  | nil => simp [List.isPrefixOf]
  | cons a as ih => simp [List.isPrefixOf, ih]

theorem replaceAll_of_not_occurs {pat : List Char} (sub : List Char)
    {cs : List Char} (h : occursIn pat cs = false) :
    replaceAll pat sub cs = cs := by
  induction cs with
  | nil => simp [replaceAll]
  | cons c rest ih =>
    simp only [occursIn, Bool.or_eq_false_iff] at h
    rw [replaceAll, dif_neg]
    · rw [ih h.2]
    · intro hcontra
      rw [h.1] at hcontra
      exact Bool.false_ne_true hcontra.1

theorem replaceAll_append_self {pat : List Char} (sub rest : List Char)
    (h : pat ≠ []) :
    replaceAll pat sub (pat ++ rest) = sub ++ replaceAll pat sub rest := by
  cases pat with
  | nil => exact absurd rfl h
  | cons p ps =>
    rw [List.cons_append, replaceAll, dif_pos]
    · simp only [List.length_cons, List.drop_succ_cons, List.drop_left]
    · constructor
      · rw [← List.cons_append]
        exact isPrefixOf_append_self _ _
      · exact List.cons_ne_nil p ps

/-! ### Helper lemmas about lookup in merged dicts -/

theorem lookup_map_set_ne {d : List (String × String)} {k k' v : String}
    (h : k' ≠ k) :
    List.lookup k' (d.map (fun kv => if kv.1 == k then (k, v) else kv)) =
      List.lookup k' d := by
  induction d with
  | nil => rfl
  | cons kv tl ih =>
    obtain ⟨k1, v1⟩ := kv
    by_cases hkv : k1 = k
    · subst hkv
      have h1 : (k' == k1) = false := beq_eq_false_iff_ne.mpr h
      simp only [List.map_cons, beq_self_eq_true, if_true, List.lookup_cons, h1]
      exact ih
    · have h2 : (k1 == k) = false := beq_eq_false_iff_ne.mpr hkv
      simp only [List.map_cons, h2, Bool.false_eq_true, if_false, List.lookup_cons]
      cases hk' : (k' == k1) with
      | true => rfl
      | false => exact ih

theorem lookup_map_set_self {d : List (String × String)} {k v : String}
    (h : d.any (fun kv => kv.1 == k) = true) :
    List.lookup k (d.map (fun kv => if kv.1 == k then (k, v) else kv)) =
      some v := by
  induction d with
  | nil => simp at h
  | cons kv tl ih =>
    obtain ⟨k1, v1⟩ := kv
    by_cases hkv : k1 = k
    · subst hkv
      simp only [List.map_cons, beq_self_eq_true, if_true, List.lookup_cons]
    · have h2 : (k1 == k) = false := beq_eq_false_iff_ne.mpr hkv
      have h3 : (k == k1) = false :=
        beq_eq_false_iff_ne.mpr (fun hc => hkv hc.symm)
      simp only [List.any_cons, h2, Bool.false_or] at h
      simp only [List.map_cons, h2, Bool.false_eq_true, if_false,
        List.lookup_cons, h3]
      exact ih h

theorem lookup_of_any_false {d : List (String × String)} {k : String}
    (h : d.any (fun kv => kv.1 == k) = false) :
    List.lookup k d = none := by
  induction d with
  | nil => rfl
  | cons kv tl ih =>
    obtain ⟨k1, v1⟩ := kv
    simp only [List.any_cons, Bool.or_eq_false_iff] at h
    have h3 : (k == k1) = false := by
      cases hc : (k == k1) with
      | false => rfl
      | true =>
        have hkk : k = k1 := beq_iff_eq.mp hc
        rw [← hkk] at h
        simp at h
    simp only [List.lookup_cons, h3]
    exact ih h.2

theorem lookup_append_single (d : List (String × String)) (k v k' : String) :
    List.lookup k' (d ++ [(k, v)]) =
      dictOr (List.lookup k' d) (if k' = k then some v else none) := by
  induction d with
  | nil =>
    rw [List.nil_append]
    by_cases hk : k' = k
    · subst hk
      simp [List.lookup_cons, dictOr]
    · have h1 : (k' == k) = false := beq_eq_false_iff_ne.mpr hk
      simp [List.lookup_cons, h1, dictOr, hk]
  | cons kv tl ih =>
    obtain ⟨k1, v1⟩ := kv
    rw [List.cons_append]
    cases hk1 : (k' == k1) with
    | true => simp [List.lookup_cons, hk1, dictOr]
    | false => simp [List.lookup_cons, hk1, ih]

theorem lookup_pyDictInsert (d : List (String × String)) (k v k' : String) :
    List.lookup k' (pyDictInsert d k v) =
      if k' = k then some v else List.lookup k' d := by
  by_cases hany : d.any (fun kv => kv.1 == k) = true
  · rw [pyDictInsert, if_pos hany]
    by_cases hk : k' = k
    · subst hk
      rw [if_pos rfl, lookup_map_set_self hany]
    · rw [if_neg hk, lookup_map_set_ne hk]
  · have hany' : d.any (fun kv => kv.1 == k) = false := Bool.eq_false_iff.mpr hany
    rw [pyDictInsert, if_neg hany, lookup_append_single]
    by_cases hk : k' = k
    · subst hk
      rw [if_pos rfl, if_pos rfl, lookup_of_any_false hany', dictOr]
    · rw [if_neg hk, if_neg hk]
      cases List.lookup k' d <;> simp [dictOr]

theorem lookup_pyDictMerge (a : List (String × String))
    {b : List (String × String)} (k' : String)
    (hb : (b.map Prod.fst).Nodup) :
    List.lookup k' (pyDictMerge a b) =
      dictOr (List.lookup k' b) (List.lookup k' a) := by
  induction b generalizing a with
  | nil => simp [pyDictMerge, dictOr]
  | cons kv bs ih =>
    obtain ⟨k1, v1⟩ := kv
    simp only [List.map_cons, List.nodup_cons] at hb
    have hstep : pyDictMerge a ((k1, v1) :: bs) =
        pyDictMerge (pyDictInsert a k1 v1) bs := rfl
    rw [hstep, ih _ hb.2, lookup_pyDictInsert]
    by_cases hk : k' = k1
    · subst hk
      have hbs : List.lookup k' bs = none := by
        apply lookup_of_any_false
        cases hany : bs.any (fun kv2 => kv2.1 == k') with
        | false => rfl
        | true =>
          exfalso
          obtain ⟨x, hx, hxk⟩ := List.any_eq_true.mp hany
          have hx1 : x.1 ∈ bs.map Prod.fst := List.mem_map_of_mem Prod.fst hx
          rw [beq_iff_eq.mp hxk] at hx1
          exact hb.1 hx1
      rw [List.lookup_cons]
      simp [hbs, dictOr]
    · have h1 : (k' == k1) = false := beq_eq_false_iff_ne.mpr hk
      rw [List.lookup_cons]
      simp [h1, hk]

/-! ### Helper lemmas about the email service -/

theorem sendLoop_sends_le (sendRes : Nat → Option TransportError)
    (connOk : Nat → Bool) :
    ∀ remaining sIdx cIdx,
      (sendLoop sendRes connOk remaining sIdx cIdx).sends ≤ remaining := by
  intro remaining
  induction remaining with
  | zero => intro sIdx cIdx; simp [sendLoop]
  | succ n ih =>
    intro sIdx cIdx
    cases hres : sendRes sIdx with
    | none => simp only [sendLoop, hres]; omega
    | some e =>
      cases e with
      | serverDisconnected =>
        by_cases h0 : n = 0
        · simp only [sendLoop, hres, h0, if_true]; omega
        · by_cases hc : connOk cIdx = true
          · have hrec := ih (sIdx + 1) (cIdx + 1)
            simp only [sendLoop, hres, h0, if_false, hc, if_true]
            omega
          · have hc' : connOk cIdx = false := Bool.eq_false_iff.mpr hc
            simp only [sendLoop, hres, h0, if_false, hc', Bool.false_eq_true]
            omega
      | authError => simp only [sendLoop, hres]; omega
      | recipientsRefused => simp only [sendLoop, hres]; omega
      | recipientRefused => simp only [sendLoop, hres]; omega
      | senderRefused => simp only [sendLoop, hres]; omega
      | dataError => simp only [sendLoop, hres]; omega
      | heloError => simp only [sendLoop, hres]; omega
      | otherSmtp => simp only [sendLoop, hres]; omega
      | otherException => simp only [sendLoop, hres]; omega

theorem send_email_raised_eq_none (recipient_email : String)
    (email_data : List (String × String)) (sender pwd : String)
    (tmpl : EmailTemplateData) (outcome : Option TransportError) :
    (send_email recipient_email email_data sender pwd tmpl outcome).2 = none := by
  cases outcome with
  | none => rfl
  | some e => cases e <;> rfl

/-! ### Claim C6 -/

/-- Claim C6: every string matching the documented pattern is accepted by
`is_valid_email`; every string without an at sign is rejected, every string
whose part after the first at sign contains no dot is rejected, the empty
string is rejected; and the four documented examples behave as stated. -/
theorem C6_validator_contract :
    (∀ s : String, specEmailPattern s.data → is_valid_email s = true) ∧
    (∀ s : String, '@' ∉ s.data → is_valid_email s = false) ∧
    (∀ s : String, '.' ∉ (s.data.dropWhile (fun c => !(c == '@'))).tail →
      is_valid_email s = false) ∧
    is_valid_email "" = false ∧
    is_valid_email "a@b.com" = true ∧
    is_valid_email "a.b+c@sub.example.co.uk" = true ∧
    is_valid_email "a@b" = false := by
  refine ⟨?_, ?_, ?_, by decide, by decide, by decide, by decide⟩
  · intro s h
    rw [is_valid_email, (matchEmailRegex_iff s.data).mpr h]
    rfl
  · intro s h
    cases hv : is_valid_email s with
    | false => rfl
    | true =>
      exfalso
      simp only [is_valid_email, Bool.or_eq_true, Bool.and_eq_true,
        beq_iff_eq] at hv
      rcases hv with hm | ⟨hlast, hm⟩
      · exact h (specEmailPattern_at_mem ((matchEmailRegex_iff _).mp hm))
      · have hdecomp := eq_dropLast_append_of_getLast hlast
        have hmem : '@' ∈ s.data.dropLast :=
          specEmailPattern_at_mem ((matchEmailRegex_iff _).mp hm)
        apply h
        rw [hdecomp]
        exact List.mem_append_left _ hmem
  · intro s h
    cases hv : is_valid_email s with
    | false => rfl
    | true =>
      exfalso
      simp only [is_valid_email, Bool.or_eq_true, Bool.and_eq_true,
        beq_iff_eq] at hv
      apply h
      rcases hv with hm | ⟨hlast, hm⟩
      · have hdot := specEmailPattern_dot_after_at
          ((matchEmailRegex_iff _).mp hm) []
        rwa [List.append_nil] at hdot
      · have hdecomp := eq_dropLast_append_of_getLast hlast
        have hdot := specEmailPattern_dot_after_at
          ((matchEmailRegex_iff _).mp hm) ['\n']
        rwa [← hdecomp] at hdot

/-- Witness for C6 at concrete inputs. -/
theorem C6_validator_contract_witness :
    is_valid_email "a@b.com" = true ∧ is_valid_email "nodot" = false :=
  ⟨C6_validator_contract.1 "a@b.com"
      ⟨['a'], ['b'], ['c', 'o', 'm'], by decide, by decide, by decide,
        by decide, by decide, by decide, by decide⟩,
    C6_validator_contract.2.1 "nodot" (by decide)⟩

/-! ### Claim C10 -/

/-- Claim C10: an address followed by a single trailing newline is accepted
by `is_valid_email` even though the full input, newline included, matches
neither the anchored regex without the newline allowance nor the documented
pattern. -/
theorem C10_trailing_newline_quirk :
    is_valid_email "a@b.com\n" = true ∧
    matchEmailRegex "a@b.com\n".data = false ∧
    ¬ specEmailPattern "a@b.com\n".data :=
  ⟨by decide, by decide,
    fun h => absurd ((matchEmailRegex_iff _).mpr h) (by decide)⟩

/-! ### Claim C5 -/

/-- Claim C5: the message built by the delivery service's send has From equal
to the configured sender identity, To equal to the recipient, Subject equal
to the template's subject, and a body obtained by textually replacing each
brace-delimited placeholder with the corresponding field value; a pattern
that does not occur in the body leaves it unchanged, and every occurrence at
the head of the text is replaced, with no failure possible. -/
theorem C5_message_construction :
    (∀ (username recipient_email : String) (tmpl : EmailTemplateData)
        (email_data : List (String × String)) (connOk : Nat → Bool)
        (sendRes : Nat → Option TransportError) (subj : String),
      tmpl.subjectOpt = some subj →
      (send_single_email username recipient_email tmpl email_data true connOk
          sendRes).1 =
        some { fromAddr := username, toAddr := recipient_email, subject := subj,
               bodyHtml := renderBody
                 (tmpl.htmlBodyOpt.getD templateMissingBody).data email_data }) ∧
    (∀ pat sub cs : List Char, occursIn pat cs = false →
      replaceAll pat sub cs = cs) ∧
    (∀ pat sub rest : List Char, pat ≠ [] →
      replaceAll pat sub (pat ++ rest) = sub ++ replaceAll pat sub rest) := by
  refine ⟨?_, ?_, ?_⟩
  · intro username recipient tmpl email_data connOk sendRes subj hsubj
    simp [send_single_email, hsubj]
  · intro pat sub cs h
    exact replaceAll_of_not_occurs sub h
  · intro pat sub rest h
    exact replaceAll_append_self sub rest h

/-- Witness for C5 at concrete inputs. -/
theorem C5_message_construction_witness :
    (EmailTemplateData.mk (some "S") (some "B")).subjectOpt = some "S" ∧
    (send_single_email "s@x.com" "r@x.com" (EmailTemplateData.mk (some "S") (some "B"))
        [("k", "v")] true (fun _ => true) (fun _ => none)).1 =
      some { fromAddr := "s@x.com", toAddr := "r@x.com", subject := "S",
             bodyHtml := renderBody
               ((EmailTemplateData.mk (some "S") (some "B")).htmlBodyOpt.getD
                 templateMissingBody).data [("k", "v")] } :=
  ⟨rfl, C5_message_construction.1 "s@x.com" "r@x.com"
      (EmailTemplateData.mk (some "S") (some "B")) [("k", "v")]
      (fun _ => true) (fun _ => none) "S" rfl⟩

/-! ### Claim C9 -/

/-- Claim C9: the module-level send_email lets no exception reach its caller:
for the successful outcome and for every transport error it returns normally,
and the value the caller sees does not depend on the outcome, so the Step-3
handler cannot distinguish a failed delivery from a successful one. -/
theorem C9_send_email_never_raises :
    ∀ (recipient_email : String) (email_data : List (String × String))
      (sender pwd : String) (tmpl : EmailTemplateData)
      (outcome : Option TransportError),
      (send_email recipient_email email_data sender pwd tmpl outcome).2 = none ∧
      (send_email recipient_email email_data sender pwd tmpl outcome).1 =
        (send_email recipient_email email_data sender pwd tmpl none).1 := by
  intro r d s p t o
  refine ⟨send_email_raised_eq_none r d s p t o, ?_⟩
  cases o with
  | none => rfl
  | some e => cases e <;> rfl

/-! ### Claim C2 -/

/-- Claim C2: when the first transmission fails with a server disconnection,
send_single_email performs exactly one reconnect-and-resend cycle: the send
succeeds if the resend succeeds, ends in the final delivery error with the
client left disconnected if the reconnect fails or the resend disconnects
again, and in every execution performs at most `max_retries + 1 = 2`
transmissions. -/
theorem C2_disconnect_retries_once :
    ∀ (username recipient_email : String) (tmpl : EmailTemplateData)
      (email_data : List (String × String)) (connOk : Nat → Bool)
      (sendRes : Nat → Option TransportError),
      (sendRes 0 = some TransportError.serverDisconnected → connOk 0 = true →
        sendRes 1 = none →
        (send_single_email username recipient_email tmpl email_data true connOk
            sendRes).2 =
          { res := SendResult.success, sends := 2, clientConnected := true }) ∧
      (sendRes 0 = some TransportError.serverDisconnected → connOk 0 = false →
        (send_single_email username recipient_email tmpl email_data true connOk
            sendRes).2 =
          { res := SendResult.deliveryError, sends := 1,
            clientConnected := false }) ∧
      (sendRes 0 = some TransportError.serverDisconnected → connOk 0 = true →
        sendRes 1 = some TransportError.serverDisconnected →
        (send_single_email username recipient_email tmpl email_data true connOk
            sendRes).2 =
          { res := SendResult.deliveryError, sends := 2,
            clientConnected := false }) ∧
      (send_single_email username recipient_email tmpl email_data true connOk
          sendRes).2.sends ≤ max_retries + 1 := by
  intro username recipient tmpl email_data connOk sendRes
  refine ⟨?_, ?_, ?_, ?_⟩
  · intro h0 hc h1
    simp [send_single_email, max_retries, sendLoop, h0, hc, h1]
  · intro h0 hc
    simp [send_single_email, max_retries, sendLoop, h0, hc]
  · intro h0 hc h1
    simp [send_single_email, max_retries, sendLoop, h0, hc, h1]
  · exact sendLoop_sends_le sendRes connOk (max_retries + 1) 0 0

/-- Witness for C2: a disconnection whose reconnect also fails. -/
theorem C2_disconnect_retries_once_witness :
    (send_single_email "s@x.com" "r@x.com" (EmailTemplateData.mk (some "S") (some "B"))
        [] true (fun _ => false)
        (fun _ => some TransportError.serverDisconnected)).2 =
      { res := SendResult.deliveryError, sends := 1, clientConnected := false } :=
  (C2_disconnect_retries_once "s@x.com" "r@x.com"
      (EmailTemplateData.mk (some "S") (some "B")) [] (fun _ => false)
      (fun _ => some TransportError.serverDisconnected)).2.1 rfl rfl

/-! ### Claim C4 -/

/-- Claim C4: the merged order of Step 3 maps every key to the value from the
latest step defining it (step3 over step2 over step1) and is defined exactly
on the union of the three key sets, provided each submitted dict has distinct
keys, as Python dict comprehensions guarantee. -/
theorem C4_merged_order_union :
    ∀ (step1_data step2_data final_step_data : List (String × String))
      (k : String),
      (step2_data.map Prod.fst).Nodup →
      (final_step_data.map Prod.fst).Nodup →
      List.lookup k (merged_data step1_data step2_data final_step_data) =
        dictOr (List.lookup k final_step_data)
          (dictOr (List.lookup k step2_data) (List.lookup k step1_data)) ∧
      (List.lookup k (merged_data step1_data step2_data final_step_data) = none ↔
        List.lookup k step1_data = none ∧ List.lookup k step2_data = none ∧
          List.lookup k final_step_data = none) := by
  intro s1 s2 s3 k h2 h3
  have hmain : List.lookup k (merged_data s1 s2 s3) =
      dictOr (List.lookup k s3) (dictOr (List.lookup k s2) (List.lookup k s1)) := by
    rw [merged_data, lookup_pyDictMerge _ _ h3, lookup_pyDictMerge _ _ h2]
  refine ⟨hmain, ?_⟩
  rw [hmain]
  cases List.lookup k s3 <;> cases List.lookup k s2 <;> cases List.lookup k s1 <;>
    simp [dictOr]

/-- Witness for C4 at a concrete three-way key collision. -/
theorem C4_merged_order_union_witness :
    List.lookup "x" (merged_data [("a", "1"), ("x", "s1")]
        [("x", "s2"), ("b", "2")] [("x", "s3")]) =
      dictOr (List.lookup "x" [("x", "s3")])
        (dictOr (List.lookup "x" [("x", "s2"), ("b", "2")])
          (List.lookup "x" [("a", "1"), ("x", "s1")])) :=
  (C4_merged_order_union [("a", "1"), ("x", "s1")] [("x", "s2"), ("b", "2")]
      [("x", "s3")] "x" (by decide) (by decide)).1

/-! ### Claim C8 -/

/-- Claim C8: a second Step-1 submission for the same user overwrites the
session entirely: the store then holds exactly the fresh session for that
user, equals the store produced by the second start alone, and entries of
other users are unchanged. -/
theorem C8_restart_overwrites :
    ∀ (store : TempOrderData) (user_id : Nat) (email1 : String)
      (data1 : List (String × String)) (email2 : String)
      (data2 : List (String × String)),
      OrderFormStep1_on_submit
          (OrderFormStep1_on_submit store user_id email1 data1)
          user_id email2 data2 user_id =
        some { email := email2, step1_data := data2, step2_data := none } ∧
      OrderFormStep1_on_submit
          (OrderFormStep1_on_submit store user_id email1 data1)
          user_id email2 data2 =
        OrderFormStep1_on_submit store user_id email2 data2 ∧
      (∀ v : Nat, v ≠ user_id →
        OrderFormStep1_on_submit
            (OrderFormStep1_on_submit store user_id email1 data1)
            user_id email2 data2 v = store v) := by
  intro store uid e1 d1 e2 d2
  refine ⟨by simp [OrderFormStep1_on_submit], ?_, ?_⟩
  · funext u
    by_cases hu : u = uid <;> simp [OrderFormStep1_on_submit, hu]
  · intro v hv
    simp [OrderFormStep1_on_submit, hv]

/-- Witness for C8: another user's (absent) entry is untouched. -/
theorem C8_restart_overwrites_witness :
    OrderFormStep1_on_submit
        (OrderFormStep1_on_submit emptyTempOrderData 0 "a@b.com"
          [("order_number", "1")])
        0 "c@d.com" [] 1 = emptyTempOrderData 1 :=
  (C8_restart_overwrites emptyTempOrderData 0 "a@b.com" [("order_number", "1")]
      "c@d.com" []).2.2 1 (by decide)

/-! ### Claim C1 -/

/-- Claim C1: for a user with a live session whose merged field dicts define
every key the summary reads (as the three required-field forms of the source
always do), once Step-3 processing finishes the session entry is gone from
the store and no exception escapes the handler, for the successful email
outcome and for every transport failure (the wired send function swallows
them all, so the cleanup line is always reached). -/
theorem C1_session_deleted_on_terminal_step :
    ∀ (store : TempOrderData) (user_id : Nat) (user_email : String)
      (step1_data step2_data final_step_data : List (String × String))
      (sender pwd : String) (tmpl : EmailTemplateData)
      (outcome : Option TransportError) (sess : OrderSession),
      summaryKeys.all (fun k =>
        (List.lookup k
          (merged_data step1_data step2_data final_step_data)).isSome) = true →
      store user_id = some sess →
      (OrderFormStep3_on_submit store user_id user_email step1_data step2_data
          final_step_data sender pwd tmpl outcome).store user_id = none ∧
      (OrderFormStep3_on_submit store user_id user_email step1_data step2_data
          final_step_data sender pwd tmpl outcome).raised = none := by
  intro store uid email s1 s2 s3 sender pwd tmpl outcome sess hall hsess
  have hsend := send_email_raised_eq_none email (merged_data s1 s2 s3) sender
    pwd tmpl outcome
  refine ⟨?_, ?_⟩ <;> simp [OrderFormStep3_on_submit, hall, hsend, hsess]

/-- Witness for C1: the source's complete field sets, a live session, and an
authentication-error outcome. -/
theorem C1_session_deleted_on_terminal_step_witness :
    summaryKeys.all (fun k =>
      (List.lookup k
        (merged_data sampleStep1Data sampleStep2Data sampleStep3Data)).isSome) =
      true ∧
    OrderFormStep1_on_submit emptyTempOrderData 0 "a@b.com" sampleStep1Data 0 =
      some { email := "a@b.com", step1_data := sampleStep1Data,
             step2_data := none } ∧
    ((OrderFormStep3_on_submit
        (OrderFormStep1_on_submit emptyTempOrderData 0 "a@b.com" sampleStep1Data)
        0 "a@b.com" sampleStep1Data sampleStep2Data sampleStep3Data
        "s@x.com" "pw" (EmailTemplateData.mk (some "S") (some "B"))
        (some TransportError.authError)).store 0 = none ∧
      (OrderFormStep3_on_submit
        (OrderFormStep1_on_submit emptyTempOrderData 0 "a@b.com" sampleStep1Data)
        0 "a@b.com" sampleStep1Data sampleStep2Data sampleStep3Data
        "s@x.com" "pw" (EmailTemplateData.mk (some "S") (some "B"))
        (some TransportError.authError)).raised = none) :=
  ⟨by decide, rfl, C1_session_deleted_on_terminal_step
      (OrderFormStep1_on_submit emptyTempOrderData 0 "a@b.com" sampleStep1Data)
      0 "a@b.com" sampleStep1Data sampleStep2Data sampleStep3Data
      "s@x.com" "pw" (EmailTemplateData.mk (some "S") (some "B"))
      (some TransportError.authError)
      { email := "a@b.com", step1_data := sampleStep1Data, step2_data := none }
      (by decide) rfl⟩

/-! ### Claim C7 -/

/-- Claim C7: whenever the merged field dicts define every key the summary
reads (as the source's required-field forms always do), the Step-3 trace
starts with the order-summary notification, immediately followed by the
email-send invocation, for every email outcome; the summary stays in the
trace and the handler ends without error also when the email fails, so a
sent summary with a failed email is a normal terminal outcome. -/
theorem C7_summary_before_email :
    ∀ (store : TempOrderData) (user_id : Nat) (user_email : String)
      (step1_data step2_data final_step_data : List (String × String))
      (sender pwd : String) (tmpl : EmailTemplateData)
      (outcome : Option TransportError),
      summaryKeys.all (fun k =>
        (List.lookup k
          (merged_data step1_data step2_data final_step_data)).isSome) = true →
      (∃ rest, (OrderFormStep3_on_submit store user_id user_email step1_data
          step2_data final_step_data sender pwd tmpl outcome).events =
        BotEvent.summaryMessage user_id ::
          BotEvent.emailSendCall user_email :: rest) ∧
      BotEvent.summaryMessage user_id ∈
        (OrderFormStep3_on_submit store user_id user_email step1_data
          step2_data final_step_data sender pwd tmpl outcome).events ∧
      (OrderFormStep3_on_submit store user_id user_email step1_data step2_data
          final_step_data sender pwd tmpl outcome).raised = none := by
  intro store uid email s1 s2 s3 sender pwd tmpl outcome hall
  have hsend := send_email_raised_eq_none email (merged_data s1 s2 s3) sender
    pwd tmpl outcome
  cases hstore : store uid with
  | none =>
    refine ⟨⟨[BotEvent.deleteKeyErrorLogged uid], ?_⟩, ?_, ?_⟩ <;>
      simp [OrderFormStep3_on_submit, hall, hsend, hstore]
  | some s =>
    refine ⟨⟨[BotEvent.sessionDeleted uid], ?_⟩, ?_, ?_⟩ <;>
      simp [OrderFormStep3_on_submit, hall, hsend, hstore]

/-- Witness for C7: the source's complete field sets and a failing email
outcome; the summary is still the first event and nothing is raised. -/
theorem C7_summary_before_email_witness :
    summaryKeys.all (fun k =>
      (List.lookup k
        (merged_data sampleStep1Data sampleStep2Data sampleStep3Data)).isSome) =
      true ∧
    ((∃ rest, (OrderFormStep3_on_submit emptyTempOrderData 1 "a@b.com"
        sampleStep1Data sampleStep2Data sampleStep3Data "s@x.com" "pw"
        (EmailTemplateData.mk (some "S") (some "B"))
        (some TransportError.dataError)).events =
      BotEvent.summaryMessage 1 :: BotEvent.emailSendCall "a@b.com" :: rest) ∧
    BotEvent.summaryMessage 1 ∈
      (OrderFormStep3_on_submit emptyTempOrderData 1 "a@b.com"
        sampleStep1Data sampleStep2Data sampleStep3Data "s@x.com" "pw"
        (EmailTemplateData.mk (some "S") (some "B"))
        (some TransportError.dataError)).events ∧
    (OrderFormStep3_on_submit emptyTempOrderData 1 "a@b.com"
        sampleStep1Data sampleStep2Data sampleStep3Data "s@x.com" "pw"
        (EmailTemplateData.mk (some "S") (some "B"))
        (some TransportError.dataError)).raised = none) :=
  ⟨by decide, C7_summary_before_email emptyTempOrderData 1 "a@b.com"
      sampleStep1Data sampleStep2Data sampleStep3Data "s@x.com" "pw"
      (EmailTemplateData.mk (some "S") (some "B"))
      (some TransportError.dataError) (by decide)⟩

/-! ### Claim C3 -/

/-- Claim C3 counterexample: at the concrete input of an empty store and user
0, the Step-2 and Step-3 constructors and the Step-2 submit raise a bare
KeyError that nothing in the handler catches, and no user-visible message is
produced on that path, contradicting the claimed SessionNotFoundError with a
restart prompt. -/
theorem C3_missing_session_counterexample :
    OrderFormStep2_init emptyTempOrderData 0 = Except.error PyErr.keyError ∧
    OrderFormStep3_init emptyTempOrderData 0 = Except.error PyErr.keyError ∧
    OrderFormStep2_on_submit emptyTempOrderData 0 [] =
      Except.error PyErr.keyError :=
  ⟨rfl, rfl, rfl⟩

/-- Claim C3 as amended: a step handler invoked for a user with no session in
the store raises KeyError from the bare dict lookup, and the exception
propagates out of the handler uncaught, with no restart message. -/
theorem C3_missing_session_raises_keyerror :
    ∀ (store : TempOrderData) (user_id : Nat)
      (step2_data : List (String × String)),
      store user_id = none →
      OrderFormStep2_init store user_id = Except.error PyErr.keyError ∧
      OrderFormStep3_init store user_id = Except.error PyErr.keyError ∧
      OrderFormStep2_on_submit store user_id step2_data =
        Except.error PyErr.keyError := by
  intro store uid d2 h
  refine ⟨?_, ?_, ?_⟩ <;>
    simp [OrderFormStep2_init, OrderFormStep3_init, OrderFormStep2_on_submit, h]

/-- Witness for the amended C3. -/
theorem C3_missing_session_raises_keyerror_witness :
    OrderFormStep2_init emptyTempOrderData 1 = Except.error PyErr.keyError ∧
    OrderFormStep3_init emptyTempOrderData 1 = Except.error PyErr.keyError ∧
    OrderFormStep2_on_submit emptyTempOrderData 1 [] =
      Except.error PyErr.keyError :=
  C3_missing_session_raises_keyerror emptyTempOrderData 1 [] rfl
